import Mathlib

/-!
Verification of `boule`'s `TriaxialEllipsoid` class
(`src/boule/_triaxialellipsoid.py`).

The class is an immutable (attrs `frozen=True`) value object holding the
three semi-axes, the geocentric gravitational constant, the angular
velocity and some metadata strings.  attrs runs the four validators after
all attributes have been assigned, in attribute-definition order:
`_check_semimajor_axis`, `_check_semimedium_axis`, `_check_semiminor_axis`,
`_check_geocentric_grav_const`.  The first three raise `ValueError`s (a
per-axis positivity error, or the composite axis-ordering error produced
by `_raise_invalid_axis`); the last only emits a warning.

We embed the data model generically over a linearly ordered type (so the
construction logic stays executable, e.g. over `ℚ`), and the geometric
formulas (`mean_radius`, `volume`, `geocentric_radius`) over `ℝ`.
-/

namespace Boule

/-- Which axis a positivity error is about. -/
inductive AxisName : Type
  | major
  | medium
  | minor
  deriving DecidableEq

/-- The fatal construction errors of the class: the per-axis positivity
`ValueError` (spec: `InvalidParameter`, carrying the axis and the offending
value) and the composite axis-ordering `ValueError` raised by
`_raise_invalid_axis` (spec: `InvalidAxisOrdering`, carrying all three
axis values). -/
inductive ConstructionError (α : Type) : Type
  | invalidParameter (axis : AxisName) (value : α)
  | invalidAxisOrdering (semimajor semimedium semiminor : α)
  deriving DecidableEq

/-- The non-fatal diagnostics: the warning emitted by
`_check_geocentric_grav_const` when `geocentric_grav_const < 0`,
carrying the offending value. -/
inductive ConstructionWarning (α : Type) : Type
  | negativeGravConst (value : α)
  deriving DecidableEq

/-- The attribute record of `TriaxialEllipsoid` (attrs fields in
declaration order).  `frozen=True`: no mutation path exists, which the
embedding reflects by being a plain immutable structure. -/
structure TriaxialEllipsoid (α : Type) : Type where
  name : String
  semimajor_axis : α
  semimedium_axis : α
  semiminor_axis : α
  geocentric_grav_const : α
  angular_velocity : α
  long_name : Option String
  reference : Option String
  deriving DecidableEq

namespace TriaxialEllipsoid

variable {α : Type} [Zero α] [LinearOrder α]

/-- `_raise_invalid_axis`: the composite ordering error, reporting the
three axis values. -/
def invalid_axis_error (e : TriaxialEllipsoid α) : ConstructionError α :=
  .invalidAxisOrdering e.semimajor_axis e.semimedium_axis e.semiminor_axis

/-- `_check_semimajor_axis`: positivity of the semimajor axis, then the
medium-vs-major ordering check. -/
def check_semimajor_axis (e : TriaxialEllipsoid α) : Option (ConstructionError α) :=
  if ¬ e.semimajor_axis > 0 then
    some (.invalidParameter .major e.semimajor_axis)
  else if e.semimedium_axis > e.semimajor_axis then
    some e.invalid_axis_error
  else
    none

/-- `_check_semimedium_axis`: positivity of the semimedium axis, then the
minor-vs-medium ordering check. -/
def check_semimedium_axis (e : TriaxialEllipsoid α) : Option (ConstructionError α) :=
  if ¬ e.semimedium_axis > 0 then
    some (.invalidParameter .medium e.semimedium_axis)
  else if e.semiminor_axis > e.semimedium_axis then
    some e.invalid_axis_error
  else
    none

/-- `_check_semiminor_axis`: positivity of the semiminor axis only. -/
def check_semiminor_axis (e : TriaxialEllipsoid α) : Option (ConstructionError α) :=
  if ¬ e.semiminor_axis > 0 then
    some (.invalidParameter .minor e.semiminor_axis)
  else
    none

/-- `_check_geocentric_grav_const`: warn when the constant is negative. -/
def check_geocentric_grav_const (e : TriaxialEllipsoid α) :
    Option (ConstructionWarning α) :=
  if e.geocentric_grav_const < 0 then
    some (.negativeGravConst e.geocentric_grav_const)
  else
    none

/-- Construction: attrs assigns all attributes, then runs the validators
in attribute-definition order; the first `ValueError` aborts construction,
and the gravitational-constant check only collects a warning.  Returns
either the first error or the instance together with the warnings
emitted. -/
def mk? (name : String) (semimajor_axis semimedium_axis semiminor_axis
    geocentric_grav_const angular_velocity : α)
    (long_name reference : Option String) :
    Except (ConstructionError α) (TriaxialEllipsoid α × List (ConstructionWarning α)) :=
  let e : TriaxialEllipsoid α :=
    ⟨name, semimajor_axis, semimedium_axis, semiminor_axis,
      geocentric_grav_const, angular_velocity, long_name, reference⟩
  match e.check_semimajor_axis with
  | some err => .error err
  | none =>
    match e.check_semimedium_axis with
    | some err => .error err
    | none =>
      match e.check_semiminor_axis with
      | some err => .error err
      | none => .ok (e, e.check_geocentric_grav_const.toList)

/-- `mean_radius` property: `(a + b + c) / 3`. -/
noncomputable def mean_radius (e : TriaxialEllipsoid ℝ) : ℝ :=
  (e.semimajor_axis + e.semimedium_axis + e.semiminor_axis) / 3

/-- `volume` property: `(4 / 3 * π) * a * b * c`. -/
noncomputable def volume (e : TriaxialEllipsoid ℝ) : ℝ :=
  (4 / 3 * Real.pi) * e.semimajor_axis * e.semimedium_axis * e.semiminor_axis

/-- `np.radians`: degrees to radians, `d * (π / 180)`. -/
noncomputable def radians (d : ℝ) : ℝ :=
  d * (Real.pi / 180)

/-- The flattening factor `f1 = (a - c) / a` computed inside
`geocentric_radius` from the ellipsoid's own axes. -/
noncomputable def f1 (e : TriaxialEllipsoid ℝ) : ℝ :=
  (e.semimajor_axis - e.semiminor_axis) / e.semimajor_axis

/-- The flattening factor `f2 = (a - b) / a` computed inside
`geocentric_radius` from the ellipsoid's own axes. -/
noncomputable def f2 (e : TriaxialEllipsoid ℝ) : ℝ :=
  (e.semimajor_axis - e.semimedium_axis) / e.semimajor_axis

/-- The expression under `np.sqrt` in `geocentric_radius`. -/
noncomputable def radicand (e : TriaxialEllipsoid ℝ)
    (longitude latitude longitude_semimajor_axis : ℝ) : ℝ :=
  1 - (2 * e.f1 - e.f1 ^ 2) * Real.cos (radians latitude) ^ 2
    - (2 * e.f2 - e.f2 ^ 2) * Real.sin (radians latitude) ^ 2
    - (1 - e.f1) ^ 2 * (2 * e.f2 - e.f2 ^ 2) * Real.cos (radians latitude) ^ 2
      * Real.cos (radians longitude - radians longitude_semimajor_axis) ^ 2

/-- `geocentric_radius(longitude, latitude, longitude_semimajor_axis)`:
`a * (1 - f1) * (1 - f2) / sqrt(radicand)`. -/
noncomputable def geocentric_radius (e : TriaxialEllipsoid ℝ)
    (longitude latitude longitude_semimajor_axis : ℝ) : ℝ :=
  e.semimajor_axis * (1 - e.f1) * (1 - e.f2) /
    Real.sqrt (e.radicand longitude latitude longitude_semimajor_axis)

/-- State-passing view of the method call on the frozen object: the method
only reads `self`, so the call returns its value together with the
(unchanged) receiver. -/
noncomputable def geocentric_radius_call (e : TriaxialEllipsoid ℝ)
    (longitude latitude longitude_semimajor_axis : ℝ) :
    ℝ × TriaxialEllipsoid ℝ :=
  (e.geocentric_radius longitude latitude longitude_semimajor_axis, e)

end TriaxialEllipsoid

/-- The spec's degree-to-radian conversion: `radians = degrees · π/180`. -/
noncomputable def spec_radians (d : ℝ) : ℝ :=
  d * Real.pi / 180

/-- The spec's flattening factor `f1 = (a − c) / a`. -/
noncomputable def spec_f1 (e : TriaxialEllipsoid ℝ) : ℝ :=
  (e.semimajor_axis - e.semiminor_axis) / e.semimajor_axis

/-- The spec's flattening factor `f2 = (a − b) / a`. -/
noncomputable def spec_f2 (e : TriaxialEllipsoid ℝ) : ℝ :=
  (e.semimajor_axis - e.semimedium_axis) / e.semimajor_axis

/-- The reference formula of the spec, written from its words:
`R(φ, λ) = a·(1−f1)·(1−f2) / sqrt(1 − (2f1−f1²)·cos²φ − (2f2−f2²)·sin²φ
− (1−f1)²·(2f2−f2²)·cos²φ·cos²(λ−λ_a))` with `φ, λ, λ_a` the three
inputs converted from degrees by multiplying by `π/180`. -/
noncomputable def geocentric_radius_spec (e : TriaxialEllipsoid ℝ)
    (longitude latitude longitude_semimajor_axis : ℝ) : ℝ :=
  e.semimajor_axis * (1 - spec_f1 e) * (1 - spec_f2 e) /
    Real.sqrt (1 - (2 * spec_f1 e - spec_f1 e ^ 2) * Real.cos (spec_radians latitude) ^ 2
      - (2 * spec_f2 e - spec_f2 e ^ 2) * Real.sin (spec_radians latitude) ^ 2
      - (1 - spec_f1 e) ^ 2 * (2 * spec_f2 e - spec_f2 e ^ 2)
        * Real.cos (spec_radians latitude) ^ 2
        * Real.cos (spec_radians longitude - spec_radians longitude_semimajor_axis) ^ 2)

/-- Name used for concrete instances in closed statements. -/
def testName : String :=
  "probe"

open TriaxialEllipsoid

/-- When `0 < c ≤ b ≤ a`, all three axis validators pass and construction
returns the instance, with the negative-`GM` warning exactly when
`GM < 0`. -/
theorem mk?_ok_of_valid {α : Type} [Zero α] [LinearOrder α] (name : String)
    (a b c GM av : α) (ln ref : Option String)
    (hc : 0 < c) (hcb : c ≤ b) (hba : b ≤ a) :
    mk? name a b c GM av ln ref =
      .ok (⟨name, a, b, c, GM, av, ln, ref⟩,
        if GM < 0 then [ConstructionWarning.negativeGravConst GM] else []) := by
  have hb : 0 < b := hc.trans_le hcb
  have ha : 0 < a := hb.trans_le hba
  by_cases hGM : GM < 0 <;>
    simp [mk?, check_semimajor_axis, check_semimedium_axis, check_semiminor_axis,
      check_geocentric_grav_const, ha, hb, hc, not_lt.mpr hba, not_lt.mpr hcb, hGM]

/-- C2: for all `(a, b, c)` with `a ≥ b ≥ c > 0` (any name, `GM ≥ 0`,
angular velocity), construction succeeds, `mean_radius = (a + b + c) / 3`
and `volume = 4/3 · π · a · b · c`. -/
theorem C2_valid_axes_construct_mean_radius_volume (name : String)
    (a b c GM av : ℝ) (ln ref : Option String)
    (hc : 0 < c) (hcb : c ≤ b) (hba : b ≤ a) (hGM : 0 ≤ GM) :
    mk? name a b c GM av ln ref = .ok (⟨name, a, b, c, GM, av, ln, ref⟩, []) ∧
    mean_radius ⟨name, a, b, c, GM, av, ln, ref⟩ = (a + b + c) / 3 ∧
    volume ⟨name, a, b, c, GM, av, ln, ref⟩ = 4 / 3 * Real.pi * (a * b * c) := by
  refine ⟨?_, rfl, ?_⟩
  · rw [mk?_ok_of_valid name a b c GM av ln ref hc hcb hba, if_neg (not_lt.mpr hGM)]
  · rw [volume]
    ring

/-- C2 witness at `(a, b, c) = (3, 2, 1)`, `GM = 0`. -/
theorem C2_valid_axes_construct_mean_radius_volume_witness :
    ((0 : ℝ) < 1 ∧ (1 : ℝ) ≤ 2 ∧ (2 : ℝ) ≤ 3 ∧ (0 : ℝ) ≤ 0) ∧
    (mk? testName (3 : ℝ) 2 1 0 0 none none =
        .ok (⟨testName, 3, 2, 1, 0, 0, none, none⟩, []) ∧
      mean_radius ⟨testName, 3, 2, 1, 0, 0, none, none⟩ = (3 + 2 + 1) / 3 ∧
      volume ⟨testName, 3, 2, 1, 0, 0, none, none⟩ = 4 / 3 * Real.pi * (3 * 2 * 1)) :=
  ⟨⟨by norm_num, by norm_num, by norm_num, le_rfl⟩,
    C2_valid_axes_construct_mean_radius_volume testName 3 2 1 0 0 none none
      (by norm_num) (by norm_num) (by norm_num) le_rfl⟩

/-- C3 counterexample: at `(a, b, c) = (1, 2, -1)` the semiminor axis is
`≤ 0`, yet construction fails with the axis-ordering error (raised by the
semimajor validator because `b > a`), not with an `InvalidParameter`
positivity error. -/
theorem C3_counterexample :
    ((-1 : ℝ) ≤ 0) ∧
    mk? testName (1 : ℝ) 2 (-1) 0 0 none none =
      .error (.invalidAxisOrdering 1 2 (-1)) := by
  refine ⟨by norm_num, ?_⟩
  norm_num [mk?, check_semimajor_axis, invalid_axis_error]

/-- C3 (amended): if any axis is `≤ 0`, construction fails and no instance
is produced; the error is an `InvalidParameter` positivity error naming a
nonpositive axis value, unless an axis-ordering violation is detected
first, in which case it is the `InvalidAxisOrdering` error carrying all
three values. -/
theorem C3_nonpositive_axis_fails (name : String) (a b c GM av : ℝ)
    (ln ref : Option String) (h : a ≤ 0 ∨ b ≤ 0 ∨ c ≤ 0) :
    ∃ err, mk? name a b c GM av ln ref = .error err ∧
      ((∃ ax v, err = ConstructionError.invalidParameter ax v ∧ v ≤ 0) ∨
        err = ConstructionError.invalidAxisOrdering a b c) := by
  by_cases ha : (0 : ℝ) < a
  · by_cases hab : a < b
    · exact ⟨.invalidAxisOrdering a b c,
        by simp [mk?, check_semimajor_axis, invalid_axis_error, ha, hab], Or.inr rfl⟩
    · by_cases hb : (0 : ℝ) < b
      · by_cases hbc : b < c
        · exact ⟨.invalidAxisOrdering a b c,
            by simp [mk?, check_semimajor_axis, check_semimedium_axis,
              invalid_axis_error, ha, hab, hb, hbc], Or.inr rfl⟩
        · have hcle : c ≤ 0 := by
            rcases h with h | h | h
            · exact absurd ha (not_lt.mpr h)
            · exact absurd hb (not_lt.mpr h)
            · exact h
          exact ⟨.invalidParameter .minor c,
            by simp [mk?, check_semimajor_axis, check_semimedium_axis,
              check_semiminor_axis, ha, hab, hb, hbc, not_lt.mpr hcle],
            Or.inl ⟨.minor, c, rfl, hcle⟩⟩
      · exact ⟨.invalidParameter .medium b,
          by simp [mk?, check_semimajor_axis, check_semimedium_axis, ha, hab, hb],
          Or.inl ⟨.medium, b, rfl, not_lt.mp hb⟩⟩
  · exact ⟨.invalidParameter .major a,
      by simp [mk?, check_semimajor_axis, ha],
      Or.inl ⟨.major, a, rfl, not_lt.mp ha⟩⟩

/-- C3 (amended) witness at `(a, b, c) = (1, 2, -1)`. -/
theorem C3_nonpositive_axis_fails_witness :
    ((1 : ℝ) ≤ 0 ∨ (2 : ℝ) ≤ 0 ∨ (-1 : ℝ) ≤ 0) ∧
    ∃ err, mk? testName (1 : ℝ) 2 (-1) 0 0 none none = .error err ∧
      ((∃ ax v, err = ConstructionError.invalidParameter ax v ∧ v ≤ 0) ∨
        err = ConstructionError.invalidAxisOrdering 1 2 (-1)) :=
  ⟨Or.inr (Or.inr (by norm_num)),
    C3_nonpositive_axis_fails testName 1 2 (-1) 0 0 none none
      (Or.inr (Or.inr (by norm_num)))⟩

/-- C4 counterexample: at `(a, b, c) = (-1, 1, 1)` we have `b > a`, yet
construction fails with the semimajor positivity `InvalidParameter` error,
not with `InvalidAxisOrdering`. -/
theorem C4_counterexample :
    ((1 : ℝ) > -1) ∧
    mk? testName (-1 : ℝ) 1 1 0 0 none none =
      .error (.invalidParameter .major (-1)) := by
  refine ⟨by norm_num, ?_⟩
  norm_num [mk?, check_semimajor_axis]

/-- C4 (amended): for all `(a, b, c)` with `a > 0` and `b > 0` (so the
positivity checks that precede the ordering checks pass), if `b > a` or
`c > b` then construction fails with the `InvalidAxisOrdering` error
reporting all three axis values. -/
theorem C4_ordering_violation_fails (name : String) (a b c GM av : ℝ)
    (ln ref : Option String) (ha : 0 < a) (hb : 0 < b) (h : b > a ∨ c > b) :
    mk? name a b c GM av ln ref =
      .error (ConstructionError.invalidAxisOrdering a b c) := by
  rcases h with h | h
  · simp [mk?, check_semimajor_axis, invalid_axis_error, ha, h]
  · by_cases hab : a < b
    · simp [mk?, check_semimajor_axis, invalid_axis_error, ha, hab]
    · simp [mk?, check_semimajor_axis, check_semimedium_axis, invalid_axis_error,
        ha, hab, hb, h]

/-- C4 (amended) witness at `(a, b, c) = (100, 150, 50)`, the spec's
concrete scenario. -/
theorem C4_ordering_violation_fails_witness :
    ((0 : ℝ) < 100 ∧ (0 : ℝ) < 150 ∧ ((150 : ℝ) > 100 ∨ (50 : ℝ) > 150)) ∧
    mk? testName (100 : ℝ) 150 50 0 0 none none =
      .error (ConstructionError.invalidAxisOrdering 100 150 50) :=
  ⟨⟨by norm_num, by norm_num, Or.inl (by norm_num)⟩,
    C4_ordering_violation_fails testName 100 150 50 0 0 none none
      (by norm_num) (by norm_num) (Or.inl (by norm_num))⟩

/-- C5: when `semimajor_axis ≤ 0`, construction fails with the semimajor
positivity `InvalidParameter` error even when `semimedium_axis >
semimajor_axis` also holds: the positivity check runs first inside
`_check_semimajor_axis`. -/
theorem C5_semimajor_positivity_precedes_ordering (name : String)
    (a b c GM av : ℝ) (ln ref : Option String) (ha : a ≤ 0) (hba : b > a) :
    mk? name a b c GM av ln ref =
      .error (ConstructionError.invalidParameter .major a) := by
  simp [mk?, check_semimajor_axis, not_lt.mpr ha]

/-- C5 witness at `a = 0`, `b = 1`. -/
theorem C5_semimajor_positivity_precedes_ordering_witness :
    ((0 : ℝ) ≤ 0 ∧ (1 : ℝ) > 0) ∧
    mk? testName (0 : ℝ) 1 1 0 0 none none =
      .error (ConstructionError.invalidParameter .major 0) :=
  ⟨⟨le_rfl, by norm_num⟩,
    C5_semimajor_positivity_precedes_ordering testName 0 1 1 0 0 none none
      le_rfl (by norm_num)⟩

/-- C6: with valid axes and `GM < 0`, construction succeeds, the
negative-`GM` warning carrying the offending value is emitted, and every
field of the instance equals the corresponding constructor argument. -/
theorem C6_negative_grav_const_warns (name : String) (a b c GM av : ℝ)
    (ln ref : Option String) (hc : 0 < c) (hcb : c ≤ b) (hba : b ≤ a)
    (hGM : GM < 0) :
    mk? name a b c GM av ln ref =
      .ok (⟨name, a, b, c, GM, av, ln, ref⟩,
        [ConstructionWarning.negativeGravConst GM]) := by
  rw [mk?_ok_of_valid name a b c GM av ln ref hc hcb hba, if_pos hGM]

/-- C6 witness at `(a, b, c) = (3, 2, 1)`, `GM = -1`. -/
theorem C6_negative_grav_const_warns_witness :
    ((0 : ℝ) < 1 ∧ (1 : ℝ) ≤ 2 ∧ (2 : ℝ) ≤ 3 ∧ (-1 : ℝ) < 0) ∧
    mk? testName (3 : ℝ) 2 1 (-1) 0 none none =
      .ok (⟨testName, 3, 2, 1, -1, 0, none, none⟩,
        [ConstructionWarning.negativeGravConst (-1)]) :=
  ⟨⟨by norm_num, by norm_num, by norm_num, by norm_num⟩,
    C6_negative_grav_const_warns testName 3 2 1 (-1) 0 none none
      (by norm_num) (by norm_num) (by norm_num) (by norm_num)⟩

/-- C8: construction with `b = a` or `c = b` (all axes positive, ordering
otherwise respected) succeeds: the ordering checks reject only strict
violations, never exact equality. -/
theorem C8_equal_axes_accepted (name : String) (a b c GM av : ℝ)
    (ln ref : Option String) (hc : 0 < c) (hcb : c ≤ b) (hba : b ≤ a)
    (heq : b = a ∨ c = b) :
    ∃ w, mk? name a b c GM av ln ref =
      .ok (⟨name, a, b, c, GM, av, ln, ref⟩, w) :=
  ⟨_, mk?_ok_of_valid name a b c GM av ln ref hc hcb hba⟩

/-- C8 witness at `(a, b, c) = (2, 2, 1)` (`b = a`). -/
theorem C8_equal_axes_accepted_witness :
    ((0 : ℝ) < 1 ∧ (1 : ℝ) ≤ 2 ∧ (2 : ℝ) ≤ 2 ∧ ((2 : ℝ) = 2 ∨ (1 : ℝ) = 2)) ∧
    ∃ w, mk? testName (2 : ℝ) 2 1 0 0 none none =
      .ok (⟨testName, 2, 2, 1, 0, 0, none, none⟩, w) :=
  ⟨⟨by norm_num, by norm_num, le_rfl, Or.inl rfl⟩,
    C8_equal_axes_accepted testName 2 2 1 0 0 none none
      (by norm_num) (by norm_num) le_rfl (Or.inl rfl)⟩

/-- C1: on every validly constructed ellipsoid and all real inputs,
`geocentric_radius(longitude, latitude, longitude_semimajor_axis)` equals
the spec's reference formula `R(φ, λ)` with `f1 = (a − c)/a`,
`f2 = (a − b)/a` computed from the ellipsoid's own axes and the three
angles converted from degrees by multiplying by `π/180`. -/
theorem C1_geocentric_radius_matches_reference (e : TriaxialEllipsoid ℝ)
    (hc : 0 < e.semiminor_axis) (hcb : e.semiminor_axis ≤ e.semimedium_axis)
    (hba : e.semimedium_axis ≤ e.semimajor_axis)
    (longitude latitude longitude_semimajor_axis : ℝ) :
    e.geocentric_radius longitude latitude longitude_semimajor_axis =
      geocentric_radius_spec e longitude latitude longitude_semimajor_axis := by
  have hconv : ∀ d : ℝ, radians d = spec_radians d := fun d =>
    (mul_div_assoc d Real.pi 180).symm
  simp only [geocentric_radius, radicand, TriaxialEllipsoid.f1,
    TriaxialEllipsoid.f2, geocentric_radius_spec, spec_f1, spec_f2, hconv]

/-- C1 witness at `(a, b, c) = (3, 2, 1)` and angles `(45, 30, 10)`. -/
theorem C1_geocentric_radius_matches_reference_witness :
    ((0 : ℝ) < 1 ∧ (1 : ℝ) ≤ 2 ∧ (2 : ℝ) ≤ 3) ∧
    geocentric_radius ⟨testName, 3, 2, 1, 0, 0, none, none⟩ 45 30 10 =
      geocentric_radius_spec ⟨testName, 3, 2, 1, 0, 0, none, none⟩ 45 30 10 :=
  ⟨⟨by norm_num, by norm_num, by norm_num⟩,
    C1_geocentric_radius_matches_reference ⟨testName, 3, 2, 1, 0, 0, none, none⟩
      (by norm_num) (by norm_num) (by norm_num) 45 30 10⟩

/-- C7: for `a = b = c = R > 0` construction succeeds and
`geocentric_radius` returns `R` at every longitude, latitude and
semimajor-meridian longitude (`f1 = f2 = 0` collapses the formula). -/
theorem C7_sphere_degenerate_radius (name : String) (R GM av : ℝ)
    (ln ref : Option String) (hR : 0 < R) :
    (∃ w, mk? name R R R GM av ln ref =
      .ok (⟨name, R, R, R, GM, av, ln, ref⟩, w)) ∧
    ∀ longitude latitude longitude_semimajor_axis : ℝ,
      geocentric_radius ⟨name, R, R, R, GM, av, ln, ref⟩
        longitude latitude longitude_semimajor_axis = R := by
  refine ⟨⟨_, mk?_ok_of_valid name R R R GM av ln ref hR le_rfl le_rfl⟩, ?_⟩
  intro longitude latitude longitude_semimajor_axis
  norm_num [geocentric_radius, radicand, TriaxialEllipsoid.f1,
    TriaxialEllipsoid.f2, Real.sqrt_one]

/-- C7 witness at `R = 5` and angles `(12, 34, 56)`. -/
theorem C7_sphere_degenerate_radius_witness :
    ((0 : ℝ) < 5) ∧
    ((∃ w, mk? testName (5 : ℝ) 5 5 0 0 none none =
        .ok (⟨testName, 5, 5, 5, 0, 0, none, none⟩, w)) ∧
      ∀ longitude latitude longitude_semimajor_axis : ℝ,
        geocentric_radius ⟨testName, 5, 5, 5, 0, 0, none, none⟩
          longitude latitude longitude_semimajor_axis = 5) :=
  ⟨by norm_num,
    C7_sphere_degenerate_radius testName 5 0 0 none none (by norm_num)⟩

/-- C9: the method call is pure and deterministic: with the receiver
threaded through the state-passing embedding, a second call with the same
arguments returns the same value, and the receiver is unchanged. -/
theorem C9_geocentric_radius_pure (e : TriaxialEllipsoid ℝ)
    (longitude latitude longitude_semimajor_axis : ℝ) :
    (geocentric_radius_call e longitude latitude longitude_semimajor_axis).1 =
      (geocentric_radius_call
        (geocentric_radius_call e longitude latitude longitude_semimajor_axis).2
        longitude latitude longitude_semimajor_axis).1 ∧
    (geocentric_radius_call e longitude latitude longitude_semimajor_axis).2 = e :=
  ⟨rfl, rfl⟩

/-- C10: on every ellipsoid that passes construction validation
(`a ≥ b ≥ c > 0`), the expression under the square root of
`geocentric_radius` is at least `(1 − f1)²·(1 − f2)² > 0` for all real
angle inputs, so in exact real arithmetic the square-root domain-error
branch is unreachable. -/
theorem C10_radicand_positive (e : TriaxialEllipsoid ℝ)
    (hc : 0 < e.semiminor_axis) (hcb : e.semiminor_axis ≤ e.semimedium_axis)
    (hba : e.semimedium_axis ≤ e.semimajor_axis)
    (longitude latitude longitude_semimajor_axis : ℝ) :
    (1 - e.f1) ^ 2 * (1 - e.f2) ^ 2 ≤
      e.radicand longitude latitude longitude_semimajor_axis ∧
    0 < e.radicand longitude latitude longitude_semimajor_axis := by
  have ha : 0 < e.semimajor_axis := hc.trans_le (hcb.trans hba)
  have hf1_nonneg : 0 ≤ e.f1 := div_nonneg (by linarith) ha.le
  have hf1_lt_one : e.f1 < 1 := by
    rw [TriaxialEllipsoid.f1, div_lt_one ha]
    linarith
  have hf2_nonneg : 0 ≤ e.f2 := div_nonneg (by linarith) ha.le
  have hf2_lt_one : e.f2 < 1 := by
    rw [TriaxialEllipsoid.f2, div_lt_one ha]
    linarith
  have h2f1 : 0 ≤ 2 * e.f1 - e.f1 ^ 2 := by nlinarith
  have h2f2 : 0 ≤ 2 * e.f2 - e.f2 ^ 2 := by nlinarith
  have hP : 0 < 1 - e.f1 := by linarith
  have hQ : 0 < 1 - e.f2 := by linarith
  have hu0 : 0 ≤ Real.cos (radians latitude) ^ 2 := sq_nonneg _
  have hu1 : Real.cos (radians latitude) ^ 2 ≤ 1 := Real.cos_sq_le_one _
  have ht0 : 0 ≤ Real.cos (radians longitude -
      radians longitude_semimajor_axis) ^ 2 := sq_nonneg _
  have ht1 : Real.cos (radians longitude -
      radians longitude_semimajor_axis) ^ 2 ≤ 1 := Real.cos_sq_le_one _
  have hbound : (1 - e.f1) ^ 2 * (1 - e.f2) ^ 2 ≤
      e.radicand longitude latitude longitude_semimajor_axis := by
    rw [radicand, Real.sin_sq]
    nlinarith [mul_nonneg (mul_nonneg (sq_nonneg (1 - e.f2)) h2f1)
        (sub_nonneg.mpr hu1),
      mul_nonneg (mul_nonneg (mul_nonneg (sq_nonneg (1 - e.f1)) h2f2) hu0)
        (sub_nonneg.mpr ht1)]
  have hpq : 0 < (1 - e.f1) ^ 2 * (1 - e.f2) ^ 2 :=
    mul_pos (pow_pos hP 2) (pow_pos hQ 2)
  exact ⟨hbound, lt_of_lt_of_le hpq hbound⟩

/-- C10 witness at `(a, b, c) = (3, 2, 1)` and angles `(0, 0, 0)`. -/
theorem C10_radicand_positive_witness :
    ((0 : ℝ) < 1 ∧ (1 : ℝ) ≤ 2 ∧ (2 : ℝ) ≤ 3) ∧
    ((1 - TriaxialEllipsoid.f1 ⟨testName, 3, 2, 1, 0, 0, none, none⟩) ^ 2 *
        (1 - TriaxialEllipsoid.f2 ⟨testName, 3, 2, 1, 0, 0, none, none⟩) ^ 2 ≤
      radicand ⟨testName, 3, 2, 1, 0, 0, none, none⟩ 0 0 0 ∧
      0 < radicand ⟨testName, 3, 2, 1, 0, 0, none, none⟩ 0 0 0) :=
  ⟨⟨by norm_num, by norm_num, by norm_num⟩,
    C10_radicand_positive ⟨testName, 3, 2, 1, 0, 0, none, none⟩
      (by norm_num) (by norm_num) (by norm_num) 0 0 0⟩

end Boule
